import Mathlib

/-!
Verification development for the olifilo coroutine runtime.

Shallow embedding of the parts of the source relevant to the checked
properties: the result carrier (include/olifilo/expected.hpp), the error
enumeration (include/olifilo/errors.hpp and src/errors.cpp), the poll
request and awaitable leaf (include/olifilo/io/poll.hpp,
include/olifilo/coro/detail/promise.hpp), the per-leaf collect step of the
reactor in both of its revisions (include/olifilo/coro/detail/io_poll_context.hpp
and src/coro/io_poll_context.cpp), the future handle
(include/olifilo/coro/future.hpp), the vectored send
(src/io/socket_descriptor.cpp), the small-buffer vector reserve
(include/olifilo/detail/small_vector.hpp), the wait combinator
(src/coro/wait.cpp), the when_any combinator
(include/olifilo/coro/when_any.hpp) and sleep_until (src/coro.cpp).
-/

set_option autoImplicit false

/-- Error codes the runtime distinguishes.  The first four are the
`olifilo::error` enumeration (errors.hpp plus the two extra enumerators that
src/errors.cpp names in its message table); the rest are the `std::errc`
values the runtime produces or tests for.  Distinct constructors model
distinct `(category, value)` pairs of `std::error_code`. -/
inductive ErrorCode where
  | uninitialized
  | brokenPromise
  | futureAlreadyRetrieved
  | noIoPending
  | badFileDescriptor
  | timedOut
  | resultOutOfRange
  | notEnoughMemory
  | tryAgain
  | wouldBlock
  | inProgress
  | canceled
deriving DecidableEq, Repr

/-- The result carrier `olifilo::expected<T>` (expected.hpp): either a value
of `T` (storage with `_error == 0` and an engaged `_value` union member) or
an error code (`_error != 0` together with the category pointer). -/
inductive Expected (α : Type) where
  | ok (val : α)
  | error (e : ErrorCode)
deriving DecidableEq, Repr

/-- `expected<T>::operator bool` / `has_value()`: true iff `_error == 0`. -/
def Expected.hasValue {α : Type} : Expected α → Bool
  | .ok _ => true
  | .error _ => false

/-- `expected<T>::error()`: the stored error code; `none` models the
success case in which the source returns the zero `std::error_code()`. -/
def Expected.errorCode {α : Type} : Expected α → Option ErrorCode
  | .ok _ => none
  | .error e => some e

/-- The default constructor `expected<T>::expected()` (expected.hpp:290-295)
for non-void `T`: it delegates to `expected(std::in_place)`, which builds the
storage with `_error = 0` and a value-initialized `T` — that is, success
holding the default value of `T`. -/
def expected_default (α : Type) (dflt : α) : Expected α :=
  Expected.ok dflt

/-- The default constructor of `expected<void>`: `expected_storage<void>` is
default-constructed with `_error = 0` — success. -/
def expected_default_void : Expected Unit :=
  Expected.ok ()

/-- `condition_category_t::equivalent` for `condition::operation_not_ready`
(errors.hpp:31-47): an error code is equivalent to "not ready" iff it is one
of `resource_unavailable_try_again`, `operation_would_block`,
`operation_in_progress` in the generic or system category. -/
def isOperationNotReady : ErrorCode → Bool
  | .tryAgain => true
  | .wouldBlock => true
  | .inProgress => true
  | _ => false

/-- The readiness mask of a poll request, `io::poll_event`
(io/types.hpp:51-56), as its three bits. -/
structure PollEvents where
  read : Bool
  write : Bool
  priority : Bool
deriving DecidableEq, Repr

/-- A poll request `io::poll` (io/poll.hpp:12-50).  `fd` is the raw value of
the `file_descriptor_handle` (io/types.hpp): `-1` is the default / invalid
handle, so a pure timer constructed from only a time point has `fd = -1`.
Time points of `std::chrono::steady_clock` are modelled as integers. -/
structure PollReq where
  fd : Int
  events : PollEvents
  timeout : Option Int
deriving DecidableEq, Repr

/-- The pure-timer constructor `poll(timeout_clock::time_point)`
(io/poll.hpp:34-37): default handle (`fd = -1`), no event bits, with the
given deadline. -/
def poll_pure_timer (t : Int) : PollReq :=
  ⟨-1, ⟨false, false, false⟩, some t⟩

/-- The awaitable leaf `io::poll::awaitable` (io/poll.hpp:66-105), equally
`detail::awaitable_poll` (coro/detail/promise.hpp:54-98): the poll request
plus the result slot `wait_result : expected<void>` and the waiter handle.
`waiter = true` models a non-null coroutine handle. -/
structure AwaitablePoll where
  fd : Int
  events : PollEvents
  timeout : Option Int
  wait_result : Expected Unit
  waiter : Bool
deriving DecidableEq, Repr

/-- The leaf constructor `awaitable(const poll& event, ... waiter)`
(io/poll.hpp:80-84, promise.hpp:68-72): copies the poll request and stores
the waiter; `wait_result` is not mentioned, so it is initialized by the
default constructor of `expected<void>`. -/
def awaitable_poll_ctor (ev : PollReq) (w : Bool) : AwaitablePoll :=
  ⟨ev.fd, ev.events, ev.timeout, expected_default_void, w⟩

/-- The assertion the collect pass of the reactor places on every event it
walks (src/coro/io_poll_context.cpp:45, coro/detail/io_poll_context.hpp:74):
`!handler.wait_result && handler.wait_result.error() == error::uninitialized`. -/
def pendingAssertHolds (h : AwaitablePoll) : Bool :=
  match h.wait_result with
  | .error .uninitialized => true
  | _ => false

/-- `FD_SETSIZE`, the exclusive upper bound of the fd domain accepted by
`select`. -/
def FDSETSIZE : Int := 1024

/-- The three `fd_set` aggregates the collect pass fills via `FD_SET`. -/
structure FdSets where
  readfds : List Int
  writefds : List Int
  exceptfds : List Int
deriving DecidableEq, Repr

/-- `FD_SET(fd, set)`: membership-insert. -/
def fdSetAdd (fd : Int) (l : List Int) : List Int :=
  if fd ∈ l then l else fd :: l

/-- The aggregate-timeout update of the collect pass
(io_poll_context.cpp:68-71): minimum of the deadlines seen so far. -/
def mergeTimeout (tAcc : Option Int) (t : Int) : Option Int :=
  match tAcc with
  | some u => some (min u t)
  | none => some t

/-- The tail of the per-leaf collect step (io_poll_context.cpp:74-94,
identically io_poll_context.hpp:104-121): `if (!handler.fd)` skips the
invalid handle (`fd == -1`, a pure timer); otherwise each requested
readiness bit inserts the fd into the matching `fd_set` and the step
contributes `fd + 1` to `nfds`. -/
def addFdEvents (h : AwaitablePoll) (sets : FdSets) : FdSets × Nat :=
  if h.fd = -1 then (sets, 0)
  else
    let s1 := if h.events.read then { sets with readfds := fdSetAdd h.fd sets.readfds } else sets
    let s2 := if h.events.write then { s1 with writefds := fdSetAdd h.fd s1.writefds } else s1
    let s3 := if h.events.priority then { s2 with exceptfds := fdSetAdd h.fd s2.exceptfds } else s2
    let n := if h.events.read ∨ h.events.write ∨ h.events.priority then (h.fd + 1).toNat else 0
    (s3, n)

/-- Output of one per-leaf collect step: the (possibly updated) leaf, the
`fd_set` aggregates, the aggregate deadline, whether the leaf was swapped to
the ready-to-resume region (`iter_swap(i, --to_resume)`), and the `nfds`
contribution. -/
structure ExtractOut where
  handler : AwaitablePoll
  sets : FdSets
  timeoutAcc : Option Int
  ready : Bool
  nfds : Nat
deriving DecidableEq, Repr

/-- The per-leaf collect step of `extract_events` in
src/coro/io_poll_context.cpp:49-94.  The fd-domain check there is
`!(0 <= handler.fd && handler.fd < FD_SETSIZE) && !handler.timeout`: an fd
outside the domain of `select` with no deadline gets the bad-fd error and is
marked ready; a deadline already in the past gets the timed-out error and is
marked ready; otherwise the deadline is folded into the aggregate and the fd
is added to the requested `fd_set`s. -/
def extract_step_cpp (h : AwaitablePoll) (sets : FdSets) (tAcc : Option Int)
    (now : Int) : ExtractOut :=
  if ¬(0 ≤ h.fd ∧ h.fd < FDSETSIZE) ∧ h.timeout = none then
    ⟨{ h with wait_result := Expected.error .badFileDescriptor }, sets, tAcc, true, 0⟩
  else
    match h.timeout with
    | some t =>
      if t < now then
        ⟨{ h with wait_result := Expected.error .timedOut }, sets, tAcc, true, 0⟩
      else
        let r := addFdEvents h sets
        ⟨h, r.1, mergeTimeout tAcc t, false, r.2⟩
    | none =>
      let r := addFdEvents h sets
      ⟨h, r.1, tAcc, false, r.2⟩

/-- The per-leaf collect step of `extract_events` in
coro/detail/io_poll_context.hpp:79-121, whose fd-domain check is the
conjunction `handler.fd < 0 && handler.fd >= FD_SETSIZE && !handler.timeout`
(the same conjunction appears in the `wait_for` registration path of
src/coro.cpp:381).  Everything after that check is identical to the
src/coro/io_poll_context.cpp revision. -/
def extract_step_hpp (h : AwaitablePoll) (sets : FdSets) (tAcc : Option Int)
    (now : Int) : ExtractOut :=
  if h.fd < 0 ∧ FDSETSIZE ≤ h.fd ∧ h.timeout = none then
    ⟨{ h with wait_result := Expected.error .badFileDescriptor }, sets, tAcc, true, 0⟩
  else
    match h.timeout with
    | some t =>
      if t < now then
        ⟨{ h with wait_result := Expected.error .timedOut }, sets, tAcc, true, 0⟩
      else
        let r := addFdEvents h sets
        ⟨h, r.1, mergeTimeout tAcc t, false, r.2⟩
    | none =>
      let r := addFdEvents h sets
      ⟨h, r.1, tAcc, false, r.2⟩

/-- A pending leaf asking for readability of fd 1024 (the first fd outside
the domain of `select`) with no deadline, in the pending state the dispatch
logic expects (`wait_result` holding the uninitialized sentinel, waiter
non-null). -/
def badFdLeaf : AwaitablePoll :=
  ⟨1024, ⟨true, false, false⟩, none, Expected.error .uninitialized, true⟩

/-- The coroutine frame behind a future, as the future handle observes it
(coro/future.hpp): whether the coroutine reached its final suspension
(`handle.done()`) and the `std::optional<expected<T>> returned_value` slot of
its promise (coro/detail/promise.hpp:241). -/
structure FutureFrame (α : Type) where
  frameDone : Bool
  returned_value : Option (Expected α)
deriving DecidableEq, Repr

/-- The future handle `olifilo::future<T>` (coro/future.hpp:15-132): an
owning `handle` that is null after a move or after `get()` consumed it. -/
structure Future (α : Type) where
  handle : Option (FutureFrame α)
deriving DecidableEq, Repr

/-- Possible outcomes of one call to `future<T>::get()`
(coro/future.hpp:62-96). `assertFailed` is the path on which a debug build
aborts in `assert` and a release build has undefined behaviour; no
`expected` value is returned on it.  `runsReactor` is the not-yet-done path
that enters the executor loop (its outcome depends on external I/O and is
not modelled). -/
inductive GetOutcome (α : Type) where
  | assertFailed
  | runsReactor
  | value (v : Expected α)
deriving DecidableEq, Repr

/-- `future<T>::get()` (coro/future.hpp:62-96; the same shape at
src/coro.cpp:609-648): first `assert(handle)` — a null handle (moved-from or
already consumed) fails the assertion and no error value is produced.  With
a done frame it then asserts `returned_value` is engaged, moves the value
out, destroys the frame (`destroy()` nulls the handle) and returns the
value. -/
def Future.get {α : Type} (f : Future α) : GetOutcome α × Future α :=
  match f.handle with
  | none => (.assertFailed, f)
  | some frame =>
    if frame.frameDone then
      match frame.returned_value with
      | some v => (.value v, ⟨none⟩)
      | none => (.assertFailed, f)
    else
      (.runsReactor, f)

/-- The move constructor `future(future&& rhs)` (coro/future.hpp:22-25):
the new handle takes the old one and the source is left with a null
handle. -/
def Future.moveConstruct {α : Type} (f : Future α) : Future α × Future α :=
  (⟨f.handle⟩, ⟨none⟩)

/-- A future whose coroutine already completed with the value 42. -/
def doneFut : Future Nat :=
  ⟨some ⟨true, some (Expected.ok 42)⟩⟩

/-- Outcome of the eager head of `socket_descriptor::send`
(src/io/socket_descriptor.cpp:17-25): either the coroutine returns the error
of the first `sendmsg`, or it falls into the poll-then-retry loop with the
byte count `sent`, or it executes `sent = *rv` on an errored `expected`
(`operator*` asserts "dereferencing errored expected"; release builds read
an inactive union member). -/
inductive SendEagerOutcome where
  | returnErr (e : ErrorCode)
  | proceed (sent : Nat)
  | derefErrored
deriving DecidableEq, Repr

/-- The eager head of `socket_descriptor::send`
(src/io/socket_descriptor.cpp:20-24):
`if (auto rv = sendmsg(...); !rv && rv.error() != condition::operation_not_ready)
co_return error; else sent = *rv;` — the else branch is reached both on
success and on a would-block error, and it dereferences `rv` in both
cases. -/
def send_eager_head (rv : Expected Nat) : SendEagerOutcome :=
  match rv with
  | .error e =>
    if ¬isOperationNotReady e then .returnErr e
    else .derefErrored
  | .ok n => .proceed n

/-- The small-buffer vector `detail::sbo_vector<T>`
(detail/small_vector.hpp), abstracted to its element sequence and its
capacity; claims about `reserve` touch nothing else. -/
structure SboVec where
  elems : List Nat
  cap : Nat
deriving DecidableEq, Repr

/-- `SIZE_MAX`, the value of `std::size_t(-1)` on the 64-bit target. -/
def SIZE_MAX : Nat := 2 ^ 64 - 1

/-- The allocator as `reserve` consumes it: `max_size()` and
`allocate` / `allocate_at_least` (the granted capacity, or `none` when the
allocator returns null / throws `bad_alloc`). -/
structure AllocModel where
  maxSize : Nat
  grant : Nat → Option Nat

/-- Output of `sbo_vector::reserve`: the returned `expected<void>`, the
vector afterwards, and whether the allocator was invoked. -/
structure ReserveOut where
  result : Expected Unit
  vec : SboVec
  allocated : Bool
deriving DecidableEq, Repr

/-- `sbo_vector<T>::reserve(count, alloc)` (detail/small_vector.hpp:121-214):
return success at once when `count <= capacity()`; return
`result_out_of_range` when `count > SIZE_MAX >> 1` or
`count > SIZE_MAX / sizeof(T)`; return `not_enough_memory` when
`count > max_size` or when allocation yields null; otherwise move the
elements into the new buffer and adopt the granted capacity.  Every return
before the allocation succeeds leaves the vector untouched. -/
def sbo_reserve (v : SboVec) (count : Nat) (sizeofT : Nat) (A : AllocModel) :
    ReserveOut :=
  if count ≤ v.cap then ⟨Expected.ok (), v, false⟩
  else if count > SIZE_MAX >>> 1 ∨ count > SIZE_MAX / sizeofT then
    ⟨Expected.error .resultOutOfRange, v, false⟩
  else if count > A.maxSize then ⟨Expected.error .notEnoughMemory, v, false⟩
  else
    match A.grant count with
    | none => ⟨Expected.error .notEnoughMemory, v, true⟩
    | some granted => ⟨Expected.ok (), ⟨v.elems, granted⟩, true⟩

/-- A pointer value in the child list handed to the `wait` combinator
(src/coro/wait.cpp): `null` is the marker for an input future that is
already done, `nop` is the combinator-private
`nop_always_ready_promise` placeholder (wait.cpp:50), and `node i` is the
promise of the i-th live child coroutine. -/
inductive PPtr where
  | null
  | nop
  | node (i : Nat)
deriving DecidableEq, Repr

/-- A value of the `caller` back-pointer of a promise
(`promise_wait_callgraph`): null, the promise of the running combinator
(`&my_promise`), or some other promise node. -/
inductive CallerRef where
  | null
  | me
  | node (i : Nat)
deriving DecidableEq, Repr

/-- The two fields of a child promise that `wait` manipulates: the `caller`
back-pointer and whether `waits_on_me` holds the combinator handle
(`false` models a null handle). -/
structure PromState where
  caller : CallerRef
  waitsOnMe : Bool
deriving DecidableEq, Repr

/-- The child promises, indexed by identity. -/
def PromHeap : Type := Nat → PromState

/-- Pointer-indexed store update. -/
def updHeap (σ : PromHeap) (i : Nat) (s : PromState) : PromHeap :=
  fun j => if j = i then s else σ j

/-- The linking loop of `wait` (src/coro/wait.cpp:83-97), run on the list
after it was swapped into `my_promise.callees`: a null entry is replaced by
the `nop_always_ready_promise` placeholder; every other entry keeps its
value and its promise gets `caller = &my_promise` and `waits_on_me = me`.
(A `nop` entry cannot occur in caller input — the placeholder is a private
static of wait.cpp — and is kept unchanged here.) -/
def wait_link : List PPtr → PromHeap → List PPtr × PromHeap
  | [], σ => ([], σ)
  | .null :: rest, σ =>
    let r := wait_link rest σ
    (.nop :: r.1, r.2)
  | .nop :: rest, σ =>
    let r := wait_link rest σ
    (.nop :: r.1, r.2)
  | .node i :: rest, σ =>
    let r := wait_link rest (updHeap σ i ⟨.me, true⟩)
    (.node i :: r.1, r.2)

/-- The scope-exit restoration of `wait` (src/coro/wait.cpp:54-75), run on
whatever outcome ends the coroutine body: after swapping the list back, a
`nop_always_ready_promise` entry is turned back into the null pointer the
caller supplied, null entries are skipped, and every remaining child promise
gets `caller = nullptr` and `waits_on_me = nullptr`. -/
def wait_scope_exit : List PPtr → PromHeap → List PPtr × PromHeap
  | [], σ => ([], σ)
  | .nop :: rest, σ =>
    let r := wait_scope_exit rest σ
    (.null :: r.1, r.2)
  | .null :: rest, σ =>
    let r := wait_scope_exit rest σ
    (.null :: r.1, r.2)
  | .node i :: rest, σ =>
    let r := wait_scope_exit rest (updHeap σ i ⟨.null, false⟩)
    (.node i :: r.1, r.2)

/-- The `until` mode argument of `wait` (coro/wait.hpp:67-71). -/
inductive Until where
  | all_completed
  | first_completed
deriving DecidableEq, Repr

/-- The head of `wait_t::operator()` before any linking or suspension
(src/coro/wait.cpp:20-31): an empty promise list returns index 0 at once;
with mode `first_completed` and some entry already null (a done input), the
index of the first null entry is returned at once.  `some r` means the
coroutine returns `r` on this fast path, before its first suspension and
before the executor is ever entered; `none` means it continues into the
linking and waiting section. -/
def wait_fast (promises : List PPtr) (u : Until) (timeout : Option Int) :
    Option (Expected Nat) :=
  if promises.isEmpty then some (Expected.ok 0)
  else
    let firstReady := promises.findIdx (fun p => decide (p = PPtr.null))
    if u = Until.first_completed ∧ firstReady ≠ promises.length then
      some (Expected.ok firstReady)
    else
      none

/-- `when_any_result` (coro/when_any.hpp:14-27): the winning index — with
its member initializer `static_cast<std::size_t>(-1)` — and the sequence of
moved-in futures, here reduced to their `done()` flags. -/
structure WhenAnyRes where
  index : Nat
  futures : List Bool
deriving DecidableEq, Repr

/-- The early-escape fold of `when_any_t::operator()`
(coro/when_any.hpp:45): over the futures in order, starting from the
member-initialized index `size_t(-1)`, the index of the first future whose
`done()` is true; `SIZE_MAX` when none is. -/
def whenAnyScanIdx (fs : List Bool) : Nat :=
  (fs.foldl
    (fun (acc : Nat × Nat) d =>
      (if acc.1 = SIZE_MAX ∧ d = true then acc.2 else acc.1, acc.2 + 1))
    (SIZE_MAX, 0)).1

/-- The head of the variadic `when_any_t::operator()`
(coro/when_any.hpp:33-47) up to its early return: the result object is
emplaced with the moved futures, the early-escape fold fills the index, and
`if (sizeof...(Ts) == 0 || rv->index != size_t(-1)) co_return rv;` returns
it before any child is linked and before `co_await std::suspend_always()`
(the iterator overload has the same guard at when_any.hpp:134-135).
`some r` is that immediate return; `none` means the combinator goes on to
link children and suspend. -/
def when_any_head (fs : List Bool) : Option (Expected WhenAnyRes) :=
  let rv : WhenAnyRes := ⟨whenAnyScanIdx fs, fs⟩
  if fs.length = 0 ∨ rv.index ≠ SIZE_MAX then some (Expected.ok rv) else none

/-- The result mapping of `sleep_until` (src/coro.cpp:940-950):
`if (auto r = co_await io::poll(time); !r && r.error() != std::errc::timed_out)
co_return r; else co_return {};` — a timed-out poll (the normal completion
of a pure timer) becomes success, any other poll error is returned
unchanged, and a successful poll is success.  `sleep(d)`
(src/coro.cpp:952-955) merely delegates to `sleep_until(now + d)` and adds
no mapping of its own. -/
def sleep_until_map (r : Expected Unit) : Expected Unit :=
  match r with
  | .error e => if e ≠ ErrorCode.timedOut then .error e else .ok ()
  | .ok _ => .ok ()

/-- A heap in which every child is linked to the combinator, used to
instantiate restoration at a concrete input. -/
def heapAllMe : PromHeap :=
  fun _ => ⟨CallerRef.me, true⟩

/-- The leaf produced by awaiting `io::poll(fd = 3, poll_event::read)` from a
coroutine: `promise::await_transform(io::poll&&)` constructs the awaitable
from the request and the waiter handle. -/
def c4Leaf : AwaitablePoll :=
  awaitable_poll_ctor ⟨3, ⟨true, false, false⟩, none⟩ true

/-- An allocator that grants exactly the requested count. -/
def allocAlways : AllocModel :=
  ⟨2 ^ 62, fun n => some n⟩

/-- An allocator whose `allocate` always fails (returns null). -/
def allocNever : AllocModel :=
  ⟨2 ^ 62, fun _ => none⟩

/-- An allocator with a very small `max_size()`. -/
def tinyAlloc : AllocModel :=
  ⟨4, fun n => some n⟩

/-- A two-element vector at full capacity. -/
def smallVec : SboVec :=
  ⟨[1, 2], 2⟩

theorem wait_link_fst (l : List PPtr) (σ : PromHeap) :
    (wait_link l σ).1
      = l.map (fun p => match p with | PPtr.null => PPtr.nop | x => x) := by
  induction l generalizing σ with
  | nil => rfl
  | cons p rest ih => cases p <;> simp [wait_link, ih]

theorem wait_scope_exit_fst (l : List PPtr) (σ : PromHeap) :
    (wait_scope_exit l σ).1
      = l.map (fun p => match p with | PPtr.nop => PPtr.null | x => x) := by
  induction l generalizing σ with
  | nil => rfl
  | cons p rest ih => cases p <;> simp [wait_scope_exit, ih]

theorem wait_entry_roundtrip (l : List PPtr) (hl : PPtr.nop ∉ l) :
    (l.map (fun p => match p with | PPtr.null => PPtr.nop | x => x)).map
      (fun p => match p with | PPtr.nop => PPtr.null | x => x) = l := by
  induction l with
  | nil => rfl
  | cons p rest ih =>
    rw [List.mem_cons, not_or] at hl
    cases p with
    | null => simp only [List.map_cons]; rw [ih hl.2]
    | nop => exact absurd rfl hl.1
    | node j => simp only [List.map_cons]; rw [ih hl.2]

theorem wait_scope_exit_frame (l : List PPtr) (σ : PromHeap) (i : Nat)
    (h : PPtr.node i ∉ l) :
    (wait_scope_exit l σ).2 i = σ i := by
  induction l generalizing σ with
  | nil => rfl
  | cons p rest ih =>
    rw [List.mem_cons, not_or] at h
    obtain ⟨hne, hrest⟩ := h
    cases p with
    | null => simp [wait_scope_exit, ih _ hrest]
    | nop => simp [wait_scope_exit, ih _ hrest]
    | node j =>
      have hij : i ≠ j := fun hh => hne (by rw [hh])
      simp [wait_scope_exit, ih _ hrest, updHeap, hij]

theorem wait_scope_exit_mem (l : List PPtr) (σ : PromHeap) (i : Nat)
    (h : PPtr.node i ∈ l) :
    (wait_scope_exit l σ).2 i = ⟨CallerRef.null, false⟩ := by
  induction l generalizing σ with
  | nil => cases h
  | cons p rest ih =>
    by_cases hrest : PPtr.node i ∈ rest
    · cases p <;> simp [wait_scope_exit, ih _ hrest]
    · have hp : p = PPtr.node i := by
        rcases List.mem_cons.mp h with h1 | h1
        · exact h1.symm
        · exact absurd h1 hrest
      subst hp
      simp [wait_scope_exit, wait_scope_exit_frame _ _ _ hrest, updHeap]

/-- C1: a poll request with fd outside the domain of the readiness syscall
(fd < 0 or fd >= FD_SETSIZE) and no deadline is to be failed with the
bad-fd error by one collect pass, marked ready for resumption, and never
added to the fd sets passed to `select`.  First conjunct: the collect step
of src/coro/io_poll_context.cpp (whose check is the negated-range form)
does exactly that for every such leaf.  Second conjunct: the collect step
of coro/detail/io_poll_context.hpp — whose check is the unsatisfiable
conjunction `fd < 0 && fd >= FD_SETSIZE` — evaluated at the leaf with
fd = 1024, read interest and no deadline, leaves the result slot untouched,
does not mark the leaf ready, and inserts fd 1024 into the read set with
nfds = 1025, i.e. it passes the out-of-domain fd on to the syscall. -/
theorem C1_extract_fd_domain (h : AwaitablePoll) (sets : FdSets)
    (tAcc : Option Int) (now : Int)
    (hdom : h.fd < 0 ∨ FDSETSIZE ≤ h.fd) (hnt : h.timeout = none) :
    extract_step_cpp h sets tAcc now =
      ⟨{ h with wait_result := Expected.error .badFileDescriptor }, sets, tAcc, true, 0⟩
    ∧ extract_step_hpp badFdLeaf ⟨[], [], []⟩ none 0 =
      ⟨badFdLeaf, ⟨[1024], [], []⟩, none, false, 1025⟩ := by
  refine ⟨?_, by decide⟩
  have hc : ¬(0 ≤ h.fd ∧ h.fd < FDSETSIZE) ∧ h.timeout = none := by
    refine ⟨?_, hnt⟩
    rintro ⟨h1, h2⟩
    rcases hdom with h3 | h3 <;> omega
  unfold extract_step_cpp
  rw [if_pos hc]

/-- Witness for C1 at the concrete leaf with fd = 1024, read interest and
no deadline. -/
theorem C1_extract_fd_domain_witness :
    extract_step_cpp badFdLeaf ⟨[], [], []⟩ none 0 =
      ⟨{ badFdLeaf with wait_result := Expected.error .badFileDescriptor },
        ⟨[], [], []⟩, none, true, 0⟩
    ∧ extract_step_hpp badFdLeaf ⟨[], [], []⟩ none 0 =
      ⟨badFdLeaf, ⟨[1024], [], []⟩, none, false, 1025⟩ :=
  C1_extract_fd_domain badFdLeaf ⟨[], [], []⟩ none 0 (Or.inr (by decide)) rfl

/-- C2: the claim states that a default-constructed `expected<T>` holds the
error broken_promise for every non-void `T` and success for `T = void`.
On the source the default constructor delegates to `expected(std::in_place)`
for every `T`: at `T = int` the result is success holding 0, it has a value,
and it is not the broken-promise error; at `T = void` it is success. -/
theorem C2_expected_default_success :
    expected_default Int 0 = Expected.ok 0
    ∧ (expected_default Int 0).hasValue = true
    ∧ expected_default Int 0 ≠ Expected.error ErrorCode.brokenPromise
    ∧ expected_default_void = Expected.ok () :=
  ⟨rfl, rfl, by decide, rfl⟩

/-- C3: the claim states that a second `get()`, or `get()` on a moved-from
future, returns the error future_already_retrieved.  On the source: the
first `get()` on a completed future produces the stored value and nulls the
handle; the second `get()` (and `get()` on a moved-from future) reaches
`assert(handle)` with a null handle — the assert-failure outcome, which is
not a returned `expected` at all and in particular not the
future-already-retrieved error. -/
theorem C3_get_after_get :
    (doneFut.get).1 = GetOutcome.value (Expected.ok 42)
    ∧ (doneFut.get).2.handle = none
    ∧ ((doneFut.get).2.get).1 = GetOutcome.assertFailed
    ∧ ((doneFut.moveConstruct).2.get).1 = GetOutcome.assertFailed
    ∧ (GetOutcome.assertFailed : GetOutcome Nat)
        ≠ GetOutcome.value (Expected.error ErrorCode.futureAlreadyRetrieved) :=
  ⟨rfl, rfl, rfl, rfl, by decide⟩

/-- C4: the claim states that the result slot of a leaf holds the
uninitialized sentinel from construction until the reactor sets it, and
that every pending leaf (non-null waiter) observed by a collect pass has
result uninitialized.  On the source the leaf constructor leaves
`wait_result` to the default constructor of `expected<void>`, which is
success: the freshly built leaf for `co_await io::poll(3, read)` has a
successful result while its waiter is non-null, so the assertion the
collect pass places on pending leaves does not hold for it; the pure-timer
leaf of a combinator deadline starts in the same state. -/
theorem C4_leaf_initial_result :
    c4Leaf.wait_result = Expected.ok ()
    ∧ c4Leaf.waiter = true
    ∧ pendingAssertHolds c4Leaf = false
    ∧ (awaitable_poll_ctor (poll_pure_timer 5) true).wait_result = Expected.ok () :=
  ⟨rfl, rfl, rfl, rfl⟩

/-- C5: the claim states that an eager vectored send whose first `sendmsg`
reports would-block neither returns that error nor reads a byte count from
the failed result, but proceeds to the poll-then-retry loop.  On the source
the would-block case falls into the same else branch as success and executes
`sent = *rv` on the errored `expected` — the dereference-errored outcome
(failed assert, undefined behaviour in release) — rather than proceeding.
Genuine errors and successful sends take the branches the claim
describes. -/
theorem C5_send_eager_would_block :
    send_eager_head (Expected.error ErrorCode.tryAgain) = SendEagerOutcome.derefErrored
    ∧ send_eager_head (Expected.error ErrorCode.wouldBlock) = SendEagerOutcome.derefErrored
    ∧ send_eager_head (Expected.error ErrorCode.inProgress) = SendEagerOutcome.derefErrored
    ∧ send_eager_head (Expected.error ErrorCode.badFileDescriptor)
        = SendEagerOutcome.returnErr ErrorCode.badFileDescriptor
    ∧ send_eager_head (Expected.ok 27) = SendEagerOutcome.proceed 27 :=
  ⟨rfl, rfl, rfl, rfl, rfl⟩

/-- C6: whatever the child promises and the executor did in between
(arbitrary intermediate heap), composing the linking loop of `wait` with its
scope-exit restoration returns the caller-supplied pointer list bit-equal to
its entry value — null entries are null again — and leaves every child
promise named by the list with a cleared caller back-pointer and a cleared
waits_on_me handle.  The hypothesis excludes the combinator-private
placeholder from the input, which no caller can name. -/
theorem C6_wait_restores_children (l : List PPtr) (σ σA : PromHeap)
    (hl : PPtr.nop ∉ l) :
    (wait_scope_exit (wait_link l σ).1 σA).1 = l
    ∧ ∀ i : Nat, PPtr.node i ∈ l →
        (wait_scope_exit (wait_link l σ).1 σA).2 i = ⟨CallerRef.null, false⟩ := by
  constructor
  · rw [wait_scope_exit_fst, wait_link_fst]
    exact wait_entry_roundtrip l hl
  · intro i hi
    apply wait_scope_exit_mem
    rw [wait_link_fst]
    exact List.mem_map_of_mem _ hi

/-- Witness for C6: a done input (null) next to a live child (node 0), with
every intermediate state linked to the combinator. -/
theorem C6_wait_restores_children_witness :
    (wait_scope_exit (wait_link [PPtr.null, PPtr.node 0] heapAllMe).1 heapAllMe).1
      = [PPtr.null, PPtr.node 0]
    ∧ (wait_scope_exit (wait_link [PPtr.null, PPtr.node 0] heapAllMe).1 heapAllMe).2 0
      = ⟨CallerRef.null, false⟩ :=
  ⟨(C6_wait_restores_children [PPtr.null, PPtr.node 0] heapAllMe heapAllMe (by decide)).1,
   (C6_wait_restores_children [PPtr.null, PPtr.node 0] heapAllMe heapAllMe (by decide)).2
     0 (by decide)⟩

/-- C7: `wait` invoked on an empty promise list returns success index 0 on
its fast path — before linking anything, before its first suspension and
before the executor is entered — for both modes and any timeout. -/
theorem C7_wait_empty_returns_zero (u : Until) (t : Option Int) :
    wait_fast [] u t = some (Expected.ok 0) :=
  rfl

/-- Witness for C7 at both modes, without and with a timeout. -/
theorem C7_wait_empty_returns_zero_witness :
    wait_fast [] Until.all_completed none = some (Expected.ok 0)
    ∧ wait_fast [] Until.first_completed (some 17) = some (Expected.ok 0) :=
  ⟨C7_wait_empty_returns_zero Until.all_completed none,
   C7_wait_empty_returns_zero Until.first_completed (some 17)⟩

/-- C8: `when_any` applied to zero futures returns, before linking any child
and before `co_await std::suspend_always()`, a successful result whose index
is `size_t(-1)` — the no-winner sentinel, which is 2^64 - 1 and not 0 — and
whose futures sequence is empty. -/
theorem C8_when_any_empty :
    when_any_head [] = some (Expected.ok ⟨SIZE_MAX, []⟩)
    ∧ SIZE_MAX = 2 ^ 64 - 1
    ∧ SIZE_MAX ≠ 0 :=
  ⟨rfl, rfl, by decide⟩

/-- C9: `sbo_vector::reserve(count, alloc)` succeeds without invoking the
allocator when count is at most the current capacity; returns the
result-out-of-range error when count exceeds `SIZE_MAX >> 1` or
`SIZE_MAX / sizeof(T)`; returns the not-enough-memory error when count
exceeds the allocator `max_size()` (without invoking it) or when allocation
fails; and in every error case returns the vector — elements, size and
capacity — unchanged. -/
theorem C9_sbo_reserve_spec (v : SboVec) (count sizeofT : Nat) (A : AllocModel) :
    (count ≤ v.cap → sbo_reserve v count sizeofT A = ⟨Expected.ok (), v, false⟩)
    ∧ (v.cap < count → (SIZE_MAX >>> 1 < count ∨ SIZE_MAX / sizeofT < count) →
        sbo_reserve v count sizeofT A = ⟨Expected.error .resultOutOfRange, v, false⟩)
    ∧ (v.cap < count → count ≤ SIZE_MAX >>> 1 → count ≤ SIZE_MAX / sizeofT →
        A.maxSize < count →
        sbo_reserve v count sizeofT A = ⟨Expected.error .notEnoughMemory, v, false⟩)
    ∧ (v.cap < count → count ≤ SIZE_MAX >>> 1 → count ≤ SIZE_MAX / sizeofT →
        count ≤ A.maxSize → A.grant count = none →
        sbo_reserve v count sizeofT A = ⟨Expected.error .notEnoughMemory, v, true⟩) := by
  refine ⟨?_, ?_, ?_, ?_⟩
  · intro h1
    unfold sbo_reserve
    rw [if_pos h1]
  · intro h1 h2
    unfold sbo_reserve
    rw [if_neg (not_le.mpr h1), if_pos h2]
  · intro h1 h2 h3 h4
    unfold sbo_reserve
    rw [if_neg (not_le.mpr h1), if_neg (not_or.mpr ⟨not_lt.mpr h2, not_lt.mpr h3⟩),
      if_pos h4]
  · intro h1 h2 h3 h4 h5
    unfold sbo_reserve
    rw [if_neg (not_le.mpr h1), if_neg (not_or.mpr ⟨not_lt.mpr h2, not_lt.mpr h3⟩),
      if_neg (not_lt.mpr h4), h5]

/-- Witness for C9: each branch at a concrete vector, count and allocator. -/
theorem C9_sbo_reserve_spec_witness :
    sbo_reserve smallVec 2 8 allocAlways = ⟨Expected.ok (), smallVec, false⟩
    ∧ sbo_reserve smallVec (2 ^ 63) 8 allocAlways
        = ⟨Expected.error .resultOutOfRange, smallVec, false⟩
    ∧ sbo_reserve smallVec 5 8 tinyAlloc
        = ⟨Expected.error .notEnoughMemory, smallVec, false⟩
    ∧ sbo_reserve smallVec 5 8 allocNever
        = ⟨Expected.error .notEnoughMemory, smallVec, true⟩ :=
  ⟨(C9_sbo_reserve_spec smallVec 2 8 allocAlways).1 (by decide),
   (C9_sbo_reserve_spec smallVec (2 ^ 63) 8 allocAlways).2.1 (by decide)
     (Or.inl (by decide)),
   (C9_sbo_reserve_spec smallVec 5 8 tinyAlloc).2.2.1 (by decide) (by decide)
     (by decide) (by decide),
   (C9_sbo_reserve_spec smallVec 5 8 allocNever).2.2.2 (by decide) (by decide)
     (by decide) (by decide) rfl⟩

/-- C10: `sleep_until` returns success when the awaited pure-timer poll
completes with the timed-out error — the normal completion of a timer — and
returns the poll error unchanged for every other error (`sleep` delegates to
`sleep_until` and adds no mapping). -/
theorem C10_sleep_until_timeout (e : ErrorCode) (h : e ≠ ErrorCode.timedOut) :
    sleep_until_map (Expected.error ErrorCode.timedOut) = Expected.ok ()
    ∧ sleep_until_map (Expected.error e) = Expected.error e
    ∧ sleep_until_map (Expected.ok ()) = Expected.ok () := by
  refine ⟨rfl, ?_, rfl⟩
  simp [sleep_until_map, h]

/-- Witness for C10 at the cancellation error. -/
theorem C10_sleep_until_timeout_witness :
    sleep_until_map (Expected.error ErrorCode.timedOut) = Expected.ok ()
    ∧ sleep_until_map (Expected.error ErrorCode.canceled)
        = Expected.error ErrorCode.canceled :=
  ⟨(C10_sleep_until_timeout ErrorCode.canceled (by decide)).1,
   (C10_sleep_until_timeout ErrorCode.canceled (by decide)).2.1⟩
